import Mathlib

/-!
Verification of the pyspotify playlist binding (src/spotify/__init__.py and
src/spotify/playlist.py) against its specification.

The Python code is shallowly embedded: native libspotify state that a call
reads is passed explicitly (as a `NativeContainer` record of native accessor
results, or as plain arguments), Python exceptions become an `Except PyError`
result, and Python `int` keys (where `bool` is a subclass of `int`) become the
`PyKey` sum type.  Helpers that the repository references but whose source is
not in src/ (utils.load, utils.to_unicode, utils.get_with_fixed_buffer,
Error.maybe_raise, utils.IntEnum) are modelled from the specification and
marked as such in their doc comments.
-/

/-- The Python exceptions the embedded code can raise, plus the bridge-local
Timeout fault of the load-synchronization bridge. -/
inductive PyError where
  | typeError (msg : String)
  | indexError (msg : String)
  | runtimeError (msg : String)
  | valueError (msg : String)
  | assertionError
  | spError (code : Int) (msg : String)
  | timeout
  deriving Repr, DecidableEq

/-- A Python value used as a subscript key.  In Python, `bool` is a subclass
of `int`, so `isinstance(key, int)` accepts booleans; any other class (str,
float, ...) is represented by `other` carrying its class name. -/
inductive PyKey where
  | int (n : Int)
  | bool (b : Bool)
  | other (className : String)
  deriving Repr, DecidableEq

/-- Python isinstance(key, int): true for int and bool values. -/
def PyKey.isInt : PyKey → Bool
  | .int _ => true
  | .bool _ => true
  | .other _ => false

/-- The integer value a Python int or bool key denotes (True is 1, False 0);
the value is irrelevant for non-integral keys, which fail the isinstance
check before being used. -/
def PyKey.toInt : PyKey → Int
  | .int n => n
  | .bool b => if b then 1 else 0
  | .other _ => 0

/-- key.__class__.__name__, used in the TypeError message. -/
def PyKey.pyClassName : PyKey → String
  | .int _ => "int"
  | .bool _ => "bool"
  | .other c => c

/-- Modelled from the spec: utils.to_unicode decodes a native C string as
UTF-8 (src/spotify/__init__.py lines 20-21 gives the equivalent _to_unicode).
Native strings are represented in this embedding as already-decoded host
strings, so the decode step is the identity on the representation. -/
def to_unicode (s : String) : String := s

/-- Modelled from the spec: utils.get_with_fixed_buffer fetches a string
through a native call writing into a fixed-capacity buffer of the given size;
the name is truncated if the native library writes more than the buffer
holds.  Represented as truncation of the native string to the capacity. -/
def get_with_fixed_buffer (capacity : Nat) (nativeResult : String) : String :=
  String.mk (nativeResult.toList.take capacity)

/-- SP_ERROR_OK, the single libspotify success code (value 0). -/
def SP_ERROR_OK : Int := 0

namespace Error

/-- Modelled from the spec: spotify.Error.maybe_raise(code) is referenced by
playlist.py but its definition is not in src/.  Per the spec it returns
normally on the single OK success code and otherwise fails with the mapped
Fault carrying the code and its library-supplied message (sp_error_message,
modelled by msgOf, decoded as UTF-8). -/
def maybe_raise (msgOf : Int → String) (code : Int) : Except PyError Unit :=
  if code = SP_ERROR_OK then .ok ()
  else .error (.spError code (to_unicode (msgOf code)))

end Error

namespace PlaylistType

/-- sp_playlist_type value SP_PLAYLIST_TYPE_PLAYLIST from the libspotify
header (external collaborator with fixed interface). -/
def PLAYLIST : Int := 0

/-- sp_playlist_type value SP_PLAYLIST_TYPE_START_FOLDER. -/
def START_FOLDER : Int := 1

/-- sp_playlist_type value SP_PLAYLIST_TYPE_END_FOLDER. -/
def END_FOLDER : Int := 2

/-- sp_playlist_type value SP_PLAYLIST_TYPE_PLACEHOLDER. -/
def PLACEHOLDER : Int := 3

end PlaylistType

/-- The observable result of running Playlist.__init__
(src/spotify/playlist.py lines 32-43): the native handle stored in
self._sp_playlist, how many native sp_playlist_add_ref calls the constructor
performed, and how many ffi.gc release hooks it registered. -/
structure PlaylistObj where
  sp_playlist : Nat
  addRefsPerformed : Nat
  releasesRegistered : Nat
  deriving Repr, DecidableEq

namespace Playlist

/-- Playlist.__init__(uri, sp_playlist, add_ref) from src/spotify/playlist.py
lines 32-43.  `resolve` models spotify.Link(uri).as_playlist() (the Link class
is outside src/): it returns the native handle of the resolved playlist, or
none when resolution fails.  The assert on entry requires uri or sp_playlist;
on the URI path add_ref is forced to True after resolution.  One ffi.gc
release hook is registered for the stored handle. -/
def init (resolve : String → Option Nat) (uri : Option String)
    (sp_playlist : Option Nat) (add_ref : Bool) : Except PyError PlaylistObj :=
  if uri = none ∧ sp_playlist = none then .error .assertionError
  else
    match uri with
    | some u =>
      match resolve u with
      | none => .error (.valueError
          ("Failed to get playlist from Spotify URI: " ++ u))
      | some h =>
        .ok { sp_playlist := h, addRefsPerformed := 1, releasesRegistered := 1 }
    | none =>
      match sp_playlist with
      | some h =>
        .ok { sp_playlist := h,
              addRefsPerformed := if add_ref then 1 else 0,
              releasesRegistered := 1 }
      | none => .error .assertionError

/-- Playlist.name (src/spotify/playlist.py lines 67-76): decode the native
sp_playlist_name result, then return it unless it is falsy (the empty
string), in which case return None. -/
def name (nativeName : String) : Option String :=
  let n := to_unicode nativeName
  if n = "" then none else some n

/-- Playlist.rename (src/spotify/playlist.py lines 82-86): call the native
sp_playlist_rename (its status code is the renameCode argument) and pass the
code to Error.maybe_raise. -/
def rename (msgOf : Int → String) (renameCode : Int) : Except PyError Unit :=
  Error.maybe_raise msgOf renameCode

/-- Playlist.description (src/spotify/playlist.py lines 112-121): the native
sp_playlist_get_description result is either the NULL pointer (none) or a
C string (some); NULL maps to None, otherwise the string is decoded. -/
def description (nativeDescription : Option String) : Option String :=
  match nativeDescription with
  | none => none
  | some s => some (to_unicode s)

end Playlist

/-- The native playlist container state as seen through the libspotify
accessors that PlaylistContainer reads: sp_playlistcontainer_num_playlists,
and the per-index sp_playlistcontainer_playlist_type / _playlist /
_playlist_folder_id / _playlist_folder_name families. -/
structure NativeContainer where
  numPlaylists : Int
  playlistTypeAt : Int → Int
  playlistAt : Int → Nat
  folderIdAt : Int → Nat
  folderNameAt : Int → String

/-- One entry of a PlaylistContainer as returned by __getitem__: either a
Playlist wrapper (with its construction record) or a PlaylistFolder value
(the namedtuple of id, name and type from src/spotify/playlist.py
lines 279-282). -/
inductive Entry where
  | playlist (p : PlaylistObj)
  | folder (id : Nat) (name : String) (type : Int)
  deriving Repr, DecidableEq

namespace PlaylistContainer

/-- PlaylistContainer.__len__ (src/spotify/playlist.py lines 229-234): the
native sp_playlistcontainer_num_playlists result, with the sentinel -1
normalized to 0. -/
def pyLen (c : NativeContainer) : Int :=
  if c.numPlaylists = -1 then 0 else c.numPlaylists

/-- PlaylistContainer.__getitem__ (src/spotify/playlist.py lines 236-262):
reject non-integral keys with TypeError, out-of-range keys with IndexError;
then dispatch on the per-index native type tag: PLAYLIST wraps the native
handle as Playlist(sp_playlist=..., add_ref=True), START_FOLDER and
END_FOLDER build a PlaylistFolder from the folder id, the folder name read
through a fixed 100-byte buffer, and the tag; any other tag raises
RuntimeError.  The identity comparisons with PlaylistType members are
modelled as integer equality (utils.IntEnum, outside src/, caches one
instance per value per the spec, making identity and equality agree). -/
def getitem (c : NativeContainer) (key : PyKey) : Except PyError Entry :=
  if key.isInt = false then
    .error (.typeError ("list indices must be integers, not " ++
      key.pyClassName))
  else if ¬ (0 ≤ key.toInt ∧ key.toInt < pyLen c) then
    .error (.indexError "list index out of range")
  else
    let tag := c.playlistTypeAt key.toInt
    if tag = PlaylistType.PLAYLIST then
      match Playlist.init (fun _ => none) none (some (c.playlistAt key.toInt))
          true with
      | .ok p => .ok (.playlist p)
      | .error e => .error e
    else if tag = PlaylistType.START_FOLDER ∨ tag = PlaylistType.END_FOLDER then
      .ok (.folder (c.folderIdAt key.toInt)
        (get_with_fixed_buffer 100 (c.folderNameAt key.toInt)) tag)
    else
      .error (.runtimeError ("Unknown playlist type: " ++ toString tag))

end PlaylistContainer

/-- Modelled from the spec: utils.load, the load-synchronization bridge
(section 4.3), referenced by Playlist.load (src/spotify/playlist.py
lines 53-60) but not in src/.  Loop: if the is_loaded predicate holds at the
current wake count, return immediately (the returned Nat records how many
waits were performed); otherwise wait on the shared condition (one unit of
the remaining timeout budget) and re-check after the wake; when the budget is
exhausted while still not loaded, fail with a Timeout fault.  Time is
discretized by wakes: isLoadedAt t is the predicate value observed after t
waits. -/
def loadWait (isLoadedAt : Nat → Bool) : Nat → Nat → Except PyError Nat
  | fuel, t =>
    if isLoadedAt t then .ok t
    else
      match fuel with
      | 0 => .error .timeout
      | f + 1 => loadWait isLoadedAt f (t + 1)

/-- Modelled from the spec: utils.load entry point; starts the check-wait
loop of section 4.3 with zero waits performed. -/
def load (isLoadedAt : Nat → Bool) (fuel : Nat) : Except PyError Nat :=
  loadWait isLoadedAt fuel 0

/-- Python str.startswith on the character-list representation. -/
def pyStartsWith (s pre : String) : Bool :=
  pre.toList.isPrefixOf s.toList

/-- Worker for pyReplace: scan left to right over the character list,
replacing each non-overlapping occurrence of the pattern by the replacement,
as Python str.replace does; the fuel argument only serves termination and is
chosen large enough at the call site to scan the whole list. -/
def pyReplaceAux (pat repl : List Char) : Nat → List Char → List Char
  | 0, s => s
  | _ + 1, [] => []
  | fuel + 1, c :: rest =>
    if pat.isPrefixOf (c :: rest) then
      repl ++ pyReplaceAux pat repl fuel ((c :: rest).drop pat.length)
    else
      c :: pyReplaceAux pat repl fuel rest

/-- Python str.replace(pat, repl): every non-overlapping occurrence of pat in
s, scanned left to right, is replaced by repl. -/
def pyReplace (s pat repl : String) : String :=
  String.mk (pyReplaceAux pat.toList repl.toList (s.toList.length + 1) s.toList)

/-- The enum decorator from src/spotify/__init__.py lines 24-30, applied to a
symbol table: for each native symbol (dir(lib)) whose name starts with the
given prefix string, setattr binds on the decorated class the attribute named
attr.replace(pre, ''), i.e. the symbol name with every occurrence of the
prefix string removed, to the symbol value.  The result is the ordered list
of (attribute name, value) bindings performed. -/
def enumApply (pre : String) (symbols : List (String × Int)) :
    List (String × Int) :=
  symbols.filterMap (fun p =>
    if pyStartsWith p.1 pre then some (pyReplace p.1 pre "", p.2) else none)

/-- The attribute name the claim describes: the symbol name with the leading
prefix stripped once (dropping the first pre.length characters). -/
def stripLeading (pre : String) (s : String) : String :=
  String.mk (s.toList.drop (pre.toList.length))

/-- Sample container used by witnesses: three entries, entry 0 a concrete
playlist, entry 1 a folder start, entry 2 carrying an out-of-contract tag. -/
def cSample : NativeContainer :=
  { numPlaylists := 3
    playlistTypeAt := fun i =>
      if i = 0 then PlaylistType.PLAYLIST
      else if i = 1 then PlaylistType.START_FOLDER
      else 9
    playlistAt := fun _ => 7
    folderIdAt := fun _ => 7
    folderNameAt := fun _ => "Rock" }

/-- Sample container used by witnesses: the native length call reports the
unknown-length sentinel -1. -/
def cUnknown : NativeContainer :=
  { numPlaylists := -1
    playlistTypeAt := fun _ => 0
    playlistAt := fun _ => 0
    folderIdAt := fun _ => 0
    folderNameAt := fun _ => "" }

lemma getitem_not_int (c : NativeContainer) (key : PyKey)
    (hk : key.isInt = false) :
    PlaylistContainer.getitem c key =
      .error (.typeError ("list indices must be integers, not " ++
        key.pyClassName)) := by
  unfold PlaylistContainer.getitem
  rw [hk]
  rw [if_pos rfl]

lemma getitem_out_of_range (c : NativeContainer) (key : PyKey)
    (hk : key.isInt = true)
    (hr : ¬ (0 ≤ key.toInt ∧ key.toInt < PlaylistContainer.pyLen c)) :
    PlaylistContainer.getitem c key =
      .error (.indexError "list index out of range") := by
  unfold PlaylistContainer.getitem
  rw [hk]
  rw [if_neg (by decide : ¬ (true = false)), if_pos hr]

lemma getitem_in_range (c : NativeContainer) (key : PyKey)
    (hk : key.isInt = true)
    (hr : 0 ≤ key.toInt ∧ key.toInt < PlaylistContainer.pyLen c) :
    PlaylistContainer.getitem c key =
      (if c.playlistTypeAt key.toInt = PlaylistType.PLAYLIST then
        .ok (.playlist { sp_playlist := c.playlistAt key.toInt,
                         addRefsPerformed := 1, releasesRegistered := 1 })
      else if c.playlistTypeAt key.toInt = PlaylistType.START_FOLDER ∨
          c.playlistTypeAt key.toInt = PlaylistType.END_FOLDER then
        .ok (.folder (c.folderIdAt key.toInt)
          (get_with_fixed_buffer 100 (c.folderNameAt key.toInt))
          (c.playlistTypeAt key.toInt))
      else
        .error (.runtimeError ("Unknown playlist type: " ++
          toString (c.playlistTypeAt key.toInt)))) := by
  unfold PlaylistContainer.getitem
  rw [hk]
  rw [if_neg (by decide : ¬ (true = false)), if_neg (not_not_intro hr)]
  rfl

/-- C1: for every container and every key, PlaylistContainer.__getitem__
fails with TypeError when the key is not an integral value, fails with
IndexError unless 0 <= key < len(container), and returns an Entry only when
the key is integral and in range. -/
theorem claim_C1 (c : NativeContainer) (key : PyKey) :
    (key.isInt = false →
      PlaylistContainer.getitem c key =
        .error (.typeError ("list indices must be integers, not " ++
          key.pyClassName))) ∧
    (key.isInt = true →
      ¬ (0 ≤ key.toInt ∧ key.toInt < PlaylistContainer.pyLen c) →
      PlaylistContainer.getitem c key =
        .error (.indexError "list index out of range")) ∧
    (∀ e, PlaylistContainer.getitem c key = .ok e →
      key.isInt = true ∧ 0 ≤ key.toInt ∧
        key.toInt < PlaylistContainer.pyLen c) := by
  refine ⟨fun hk => getitem_not_int c key hk,
          fun hk hr => getitem_out_of_range c key hk hr, ?_⟩
  intro e he
  cases hk : key.isInt with
  | false =>
    rw [getitem_not_int c key hk] at he
    exact absurd he (by simp)
  | true =>
    by_cases hr : 0 ≤ key.toInt ∧ key.toInt < PlaylistContainer.pyLen c
    · exact ⟨rfl, hr.1, hr.2⟩
    · rw [getitem_out_of_range c key hk hr] at he
      exact absurd he (by simp)

/-- Witness for C1 at concrete inputs: a string key fails with TypeError, an
out-of-range integer key fails with IndexError, and a successful lookup at
index 0 implies the precondition. -/
theorem claim_C1_witness :
    PlaylistContainer.getitem cSample (.other "str") =
      .error (.typeError "list indices must be integers, not str") ∧
    PlaylistContainer.getitem cSample (.int 5) =
      .error (.indexError "list index out of range") ∧
    ((PyKey.int 0).isInt = true ∧ 0 ≤ (PyKey.int 0).toInt ∧
      (PyKey.int 0).toInt < PlaylistContainer.pyLen cSample) :=
  ⟨(claim_C1 cSample (.other "str")).1 rfl,
   (claim_C1 cSample (.int 5)).2.1 rfl (by decide),
   (claim_C1 cSample (.int 0)).2.2
     (.playlist { sp_playlist := 7, addRefsPerformed := 1,
                  releasesRegistered := 1 }) rfl⟩

/-- C2: for every value the native length call can report (a count or the
sentinel -1), PlaylistContainer.__len__ is non-negative; the sentinel -1 is
normalized to 0, and when it is reported every integer index lookup fails
with IndexError. -/
theorem claim_C2 (c : NativeContainer) (hrep : -1 ≤ c.numPlaylists) :
    0 ≤ PlaylistContainer.pyLen c ∧
    (c.numPlaylists = -1 →
      PlaylistContainer.pyLen c = 0 ∧
      ∀ i : Int, PlaylistContainer.getitem c (.int i) =
        .error (.indexError "list index out of range")) := by
  constructor
  · unfold PlaylistContainer.pyLen
    split_ifs with h
    · exact le_refl 0
    · omega
  · intro hs
    have hlen : PlaylistContainer.pyLen c = 0 := by
      unfold PlaylistContainer.pyLen
      rw [if_pos hs]
    refine ⟨hlen, fun i => ?_⟩
    apply getitem_out_of_range c (.int i) rfl
    rw [hlen]
    intro hcontra
    have h0 : (0:Int) ≤ i := hcontra.1
    have h1 : i < 0 := hcontra.2
    omega

/-- Witness for C2: a container reporting the sentinel -1 has length 0 and
index 5 fails with IndexError. -/
theorem claim_C2_witness :
    0 ≤ PlaylistContainer.pyLen cUnknown ∧
    PlaylistContainer.pyLen cUnknown = 0 ∧
    PlaylistContainer.getitem cUnknown (.int 5) =
      .error (.indexError "list index out of range") :=
  ⟨(claim_C2 cUnknown (by decide)).1,
   ((claim_C2 cUnknown (by decide)).2 rfl).1,
   ((claim_C2 cUnknown (by decide)).2 rfl).2 5⟩

/-- C9: __getitem__ raises TypeError exactly when the key is not an instance
of int; boolean keys pass the isinstance check and behave as the indices 1
and 0. -/
theorem claim_C9 (c : NativeContainer) :
    (∀ key : PyKey,
      (∃ m, PlaylistContainer.getitem c key = .error (.typeError m)) ↔
        key.isInt = false) ∧
    PlaylistContainer.getitem c (.bool true) =
      PlaylistContainer.getitem c (.int 1) ∧
    PlaylistContainer.getitem c (.bool false) =
      PlaylistContainer.getitem c (.int 0) := by
  refine ⟨?_, rfl, rfl⟩
  intro key
  constructor
  · rintro ⟨m, hm⟩
    cases hk : key.isInt with
    | false => rfl
    | true =>
      exfalso
      by_cases hr : 0 ≤ key.toInt ∧ key.toInt < PlaylistContainer.pyLen c
      · rw [getitem_in_range c key hk hr] at hm
        split_ifs at hm
        all_goals simp at hm
      · rw [getitem_out_of_range c key hk hr] at hm
        simp at hm
  · intro hk
    exact ⟨_, getitem_not_int c key hk⟩

/-- C3: for every valid index, __getitem__ decodes the entry by the native
per-index type tag: PLAYLIST yields a Playlist wrapping the native handle
with one reference added, START_FOLDER and END_FOLDER yield a PlaylistFolder
with the folder id, the name read through a fixed 100-byte buffer and the
boundary kind, and any other tag raises RuntimeError instead of being
coerced into a result. -/
theorem claim_C3 (c : NativeContainer) (key : PyKey)
    (hk : key.isInt = true) (h0 : 0 ≤ key.toInt)
    (hl : key.toInt < PlaylistContainer.pyLen c) :
    (c.playlistTypeAt key.toInt = PlaylistType.PLAYLIST →
      PlaylistContainer.getitem c key =
        .ok (.playlist { sp_playlist := c.playlistAt key.toInt,
                         addRefsPerformed := 1, releasesRegistered := 1 })) ∧
    (c.playlistTypeAt key.toInt = PlaylistType.START_FOLDER ∨
        c.playlistTypeAt key.toInt = PlaylistType.END_FOLDER →
      PlaylistContainer.getitem c key =
        .ok (.folder (c.folderIdAt key.toInt)
          (get_with_fixed_buffer 100 (c.folderNameAt key.toInt))
          (c.playlistTypeAt key.toInt))) ∧
    (c.playlistTypeAt key.toInt ≠ PlaylistType.PLAYLIST →
      c.playlistTypeAt key.toInt ≠ PlaylistType.START_FOLDER →
      c.playlistTypeAt key.toInt ≠ PlaylistType.END_FOLDER →
      PlaylistContainer.getitem c key =
        .error (.runtimeError ("Unknown playlist type: " ++
          toString (c.playlistTypeAt key.toInt)))) := by
  rw [getitem_in_range c key hk ⟨h0, hl⟩]
  refine ⟨?_, ?_, ?_⟩
  · intro ht
    rw [if_pos ht]
  · intro ht
    have hne : c.playlistTypeAt key.toInt ≠ PlaylistType.PLAYLIST := by
      rcases ht with h | h <;> rw [h] <;> decide
    rw [if_neg hne, if_pos ht]
  · intro h1 h2 h3
    rw [if_neg h1, if_neg (fun h => h.elim h2 h3)]

/-- Witness for C3 on the sample container: index 0 is a playlist entry with
one reference added, index 1 a folder start, index 2 an out-of-contract tag
failing with RuntimeError. -/
theorem claim_C3_witness :
    PlaylistContainer.getitem cSample (.int 0) =
      .ok (.playlist { sp_playlist := 7, addRefsPerformed := 1,
                       releasesRegistered := 1 }) ∧
    PlaylistContainer.getitem cSample (.int 1) =
      .ok (.folder 7 "Rock" PlaylistType.START_FOLDER) ∧
    PlaylistContainer.getitem cSample (.int 2) =
      .error (.runtimeError ("Unknown playlist type: " ++ toString (9 : Int))) :=
  ⟨(claim_C3 cSample (.int 0) rfl (by decide) (by decide)).1 rfl,
   (claim_C3 cSample (.int 1) rfl (by decide) (by decide)).2.1 (Or.inl rfl),
   (claim_C3 cSample (.int 2) rfl (by decide) (by decide)).2.2
     (by decide) (by decide) (by decide)⟩

/-- C4: maybe_raise returns normally exactly on the single OK success code,
and on any other code fails with the Fault carrying that code and its
library-supplied message; Playlist.rename propagates this fault unchanged
to the caller. -/
theorem claim_C4 (msgOf : Int → String) (code : Int) :
    (Error.maybe_raise msgOf code = .ok () ↔ code = SP_ERROR_OK) ∧
    (code ≠ SP_ERROR_OK →
      Error.maybe_raise msgOf code =
        .error (.spError code (to_unicode (msgOf code))) ∧
      Playlist.rename msgOf code =
        .error (.spError code (to_unicode (msgOf code)))) := by
  constructor
  · unfold Error.maybe_raise
    split_ifs with h
    · simp [h]
    · simp [h]
  · intro h
    have hm : Error.maybe_raise msgOf code =
        .error (.spError code (to_unicode (msgOf code))) := by
      unfold Error.maybe_raise
      rw [if_neg h]
    exact ⟨hm, hm⟩

/-- Witness for C4: code 0 succeeds, code 3 fails with the mapped fault and
rename propagates it. -/
theorem claim_C4_witness :
    Error.maybe_raise (fun _ => "error message") 0 = .ok () ∧
    Error.maybe_raise (fun _ => "error message") 3 =
      .error (.spError 3 "error message") ∧
    Playlist.rename (fun _ => "error message") 3 =
      .error (.spError 3 "error message") :=
  ⟨(claim_C4 (fun _ => "error message") 0).1.2 rfl,
   ((claim_C4 (fun _ => "error message") 3).2 (by decide)).1,
   ((claim_C4 (fun _ => "error message") 3).2 (by decide)).2⟩

/-- C5: when the is-loaded predicate already holds at entry, load returns
immediately with zero waits performed, whatever the timeout budget; repeated
calls on a loaded object behave identically. -/
theorem claim_C5 (isLoadedAt : Nat → Bool) (fuel fuel2 : Nat)
    (h : isLoadedAt 0 = true) :
    load isLoadedAt fuel = .ok 0 ∧ load isLoadedAt fuel2 = .ok 0 := by
  constructor <;> · unfold load loadWait; rw [h]; rfl

/-- Witness for C5: an always-loaded object returns immediately with budgets
0 and 7 alike. -/
theorem claim_C5_witness :
    load (fun _ => true) 0 = .ok 0 ∧ load (fun _ => true) 7 = .ok 0 :=
  claim_C5 (fun _ => true) 0 7 rfl

/-- C6 counterexample: the decorator uses str.replace, which removes every
occurrence of the prefix string, not only the leading one.  For the symbol
SP_ERROR_SP_ERROR_X (which starts with the prefix SP_ERROR_), the code binds
the attribute X, not the attribute SP_ERROR_X obtained by stripping the
leading prefix once as the claim states. -/
theorem claim_C6_counterexample :
    pyStartsWith "SP_ERROR_SP_ERROR_X" "SP_ERROR_" = true ∧
    stripLeading "SP_ERROR_" "SP_ERROR_SP_ERROR_X" = "SP_ERROR_X" ∧
    enumApply "SP_ERROR_" [("SP_ERROR_SP_ERROR_X", 5)] = [("X", 5)] ∧
    ("SP_ERROR_X", (5 : Int)) ∉
      enumApply "SP_ERROR_" [("SP_ERROR_SP_ERROR_X", 5)] := by
  refine ⟨rfl, rfl, rfl, ?_⟩
  decide

/-- C6 amended: for every native symbol whose name starts with the given
prefix string, the decorator binds an attribute named by removing every
occurrence of the prefix string from the symbol name (which coincides with
stripping the leading prefix whenever the prefix occurs only once), with the
symbol's integer value; conversely every bound attribute arises from such a
symbol.  This holds for every symbol following the convention, including
codes unknown when the port was written. -/
theorem claim_C6_amended (pre : String) (symbols : List (String × Int))
    (n : String) (v : Int) :
    ((n, v) ∈ symbols → pyStartsWith n pre = true →
      (pyReplace n pre "", v) ∈ enumApply pre symbols) ∧
    (∀ m w, (m, w) ∈ enumApply pre symbols →
      ∃ nm, (nm, w) ∈ symbols ∧ pyStartsWith nm pre = true ∧
        m = pyReplace nm pre "") := by
  constructor
  · intro hmem hs
    refine List.mem_filterMap.2 ⟨(n, v), hmem, ?_⟩
    rw [hs]
    rfl
  · intro m w hmw
    obtain ⟨⟨nm, wv⟩, hmem, hf⟩ := List.mem_filterMap.1 hmw
    by_cases hs : pyStartsWith nm pre = true
    · rw [hs] at hf
      simp only [if_pos] at hf
      refine ⟨nm, ?_, hs, ?_⟩
      · have hw : wv = w := by
          injection hf with hf1
          injection hf1 with h1 h2
        rw [← hw]
        exact hmem
      · injection hf with hf1
        injection hf1 with h1 h2
        exact h1.symm
    · rw [Bool.not_eq_true] at hs
      rw [hs] at hf
      simp at hf

/-- Witness for C6 amended: the symbol SP_ERROR_OK with value 0 yields the
attribute OK bound to 0. -/
theorem claim_C6_amended_witness :
    (("OK", (0 : Int)) ∈ enumApply "SP_ERROR_" [("SP_ERROR_OK", 0)]) :=
  (claim_C6_amended "SP_ERROR_" [("SP_ERROR_OK", 0)] "SP_ERROR_OK" 0).1
    (by decide) (by decide)

/-- C7: Playlist.description returns None when the native description
pointer is NULL, and otherwise the UTF-8 decoded string; a NULL description
is never mapped to the empty string. -/
theorem claim_C7 (s : String) :
    Playlist.description none = none ∧
    Playlist.description (some s) = some (to_unicode s) ∧
    Playlist.description none ≠ some "" := by
  refine ⟨rfl, rfl, ?_⟩
  intro h
  exact Option.noConfusion h

/-- C8: every Playlist constructed from a URI performs exactly one native
add_ref, whatever add_ref argument the caller passed, and every successfully
constructed Playlist registers exactly one release, so each Playlist owns
exactly one native reference. -/
theorem claim_C8 (resolve : String → Option Nat) (u : String)
    (sp : Option Nat) (a : Bool) (h : Nat) (hres : resolve u = some h) :
    Playlist.init resolve (some u) sp a =
      .ok { sp_playlist := h, addRefsPerformed := 1,
            releasesRegistered := 1 } ∧
    (∀ uri sp2 a2 p, Playlist.init resolve uri sp2 a2 = .ok p →
      p.releasesRegistered = 1) := by
  constructor
  · simp [Playlist.init, hres]
  · intro uri sp2 a2 p hp
    unfold Playlist.init at hp
    cases uri with
    | some u2 =>
      rw [if_neg (by simp)] at hp
      cases hru : resolve u2 with
      | none => simp [hru] at hp
      | some h2 =>
        simp only [hru, Except.ok.injEq] at hp
        rw [← hp]
    | none =>
      cases sp2 with
      | some h2 =>
        rw [if_neg (by simp)] at hp
        simp only [Except.ok.injEq] at hp
        rw [← hp]
      | none =>
        rw [if_pos ⟨rfl, rfl⟩] at hp
        exact absurd hp (by simp)

/-- Witness for C8: constructing from a URI with add_ref passed as False
still performs one add_ref and registers one release. -/
theorem claim_C8_witness :
    Playlist.init (fun _ => some 42) (some "spotify:playlist:x") none false =
      .ok { sp_playlist := 42, addRefsPerformed := 1,
            releasesRegistered := 1 } :=
  (claim_C8 (fun _ => some 42) "spotify:playlist:x" none false 42 rfl).1

/-- C10: Playlist.name returns None whenever the native name decodes to the
empty string and otherwise the decoded name, so a loaded playlist with an
empty actual name is indistinguishable through this accessor from an
unloaded playlist, whose native name is the empty string. -/
theorem claim_C10 (s t : String) (hs : to_unicode s = "")
    (ht : to_unicode t ≠ "") :
    Playlist.name s = none ∧
    Playlist.name t = some (to_unicode t) ∧
    Playlist.name s = Playlist.name "" := by
  have h1 : Playlist.name s = none := by
    unfold Playlist.name
    rw [if_pos hs]
  have h2 : Playlist.name t = some (to_unicode t) := by
    unfold Playlist.name
    rw [if_neg ht]
  have h3 : Playlist.name "" = none := rfl
  exact ⟨h1, h2, h1.trans h3.symm⟩

/-- Witness for C10: the empty native name gives None (like an unloaded
playlist) and a non-empty name is returned decoded. -/
theorem claim_C10_witness :
    Playlist.name "" = none ∧
    Playlist.name "Rock" = some "Rock" ∧
    Playlist.name "" = Playlist.name "" :=
  claim_C10 "" "Rock" rfl (by decide)
